import Mathlib

/-!
Verification of the OP-Gruppierung dashboard's data-reshaping core
(`Dashboard_OP-Gruppierung.py`): a shallow embedding of the REDCap record
transformation (`prepare_data`), the filter/aggregation flow, and the color
assignment helper, together with proofs of the spec's testable properties.

A raw REDCap record is an association list from column name to string value
(the REDCap JSON export delivers every field as a string; a missing field is
an absent key or the empty string).
-/

namespace OPG

/-- A raw REDCap record: association list from column name to string value. -/
def RawRow : Type := List (String × String)

/-- Model of Python `row.get(col)`: the value of a column, `none` if absent. -/
def rawGet (row : RawRow) (col : String) : Option String :=
  (List.find? (fun p => p.1 == col) row).map (fun p => p.2)

/-- Model of Python `', '.join(labels)`. -/
def joinComma : List String → String
  | [] => ""
  | [x] => x
  | x :: y :: t => x ++ ", " ++ joinComma (y :: t)

/-- The `bereich___*` checkbox mapping of `prepare_data` (entries `___1`,
`___3`, `___5`, `___6` are commented out in the source), in dict insertion
order. -/
def bereich_mapping : List (String × String) :=
  [("bereich___2", "BMC"),
   ("bereich___4", "Chirurgische Onkologie/Sarkome"),
   ("bereich___7", "Leber"),
   ("bereich___8", "Pankreas"),
   ("bereich___9", "Upper-GI")]

/-- The `leber_gruppen___*` checkbox mapping of `prepare_data`. -/
def leber_gruppen_mapping : List (String × String) :=
  [("leber_gruppen___1", "HCC"),
   ("leber_gruppen___2", "CCC"),
   ("leber_gruppen___3", "Metastasen"),
   ("leber_gruppen___4", "Benigne")]

/-- The `gruppen_chir_onko_sark___*` checkbox mapping of `prepare_data`. -/
def gruppen_chir_onko_sark_mapping : List (String × String) :=
  [("gruppen_chir_onko_sark___1", "Knochen"),
   ("gruppen_chir_onko_sark___2", "Weichteil"),
   ("gruppen_chir_onko_sark___3", "GIST"),
   ("gruppen_chir_onko_sark___4", "Andere Malignome")]

/-- The `lokalisation_sark___*` checkbox mapping of `prepare_data`. -/
def lokalisation_sark_mapping : List (String × String) :=
  [("lokalisation_sark___1", "Kopf/Hals"),
   ("lokalisation_sark___2", "Stamm"),
   ("lokalisation_sark___3", "Extremitäten"),
   ("lokalisation_sark___4", "Abdomen/retroperitoneal"),
   ("lokalisation_sark___5", "andere")]

/-- The labels of the mapped indicator columns that a row sets to `'1'`,
in mapping order (the generator expression inside the `get_*` closures). -/
def activeLabels (mapping : List (String × String)) (row : RawRow) : List String :=
  mapping.filterMap (fun p => if rawGet row p.1 = some "1" then some p.2 else none)

/-- Model of the `get_bereich`-style closures:
`', '.join(label for col, label in mapping.items() if row.get(col) == '1') or 'Nicht angegeben'`.
The Python `or` falls back to the sentinel exactly when the joined string is
empty. -/
def collapseCheckbox (mapping : List (String × String)) (row : RawRow) : String :=
  let s := joinComma (activeLabels mapping row)
  if s = "" then "Nicht angegeben" else s

/-- `get_bereich` from `prepare_data`. -/
def get_bereich (row : RawRow) : String :=
  collapseCheckbox bereich_mapping row

/-- `get_leber_gruppen` from `prepare_data`. -/
def get_leber_gruppen (row : RawRow) : String :=
  collapseCheckbox leber_gruppen_mapping row

/-- `get_gruppen_chir_onko_sark` from `prepare_data`. -/
def get_gruppen_chir_onko_sark (row : RawRow) : String :=
  collapseCheckbox gruppen_chir_onko_sark_mapping row

/-- `get_lokalisation_sark` from `prepare_data`. -/
def get_lokalisation_sark (row : RawRow) : String :=
  collapseCheckbox lokalisation_sark_mapping row

/-- A row with area checkbox flags {1,0,0,1,0,0,0,0,0}:
`bereich___1 = '1'`, `bereich___4 = '1'`, all other indicators `'0'`. -/
def rowFlags1001 : RawRow :=
  [("bereich___1", "1"), ("bereich___2", "0"), ("bereich___3", "0"),
   ("bereich___4", "1"), ("bereich___5", "0"), ("bereich___6", "0"),
   ("bereich___7", "0"), ("bereich___8", "0"), ("bereich___9", "0")]

/-- C1, counterexample: on the row with area flags {1,0,0,1,0,0,0,0,0} the
derived area label is not "Allgemein, Hernien" — `bereich___1` is absent from
the code's mapping (commented out) and `bereich___4` maps to
"Chirurgische Onkologie/Sarkome". -/
theorem get_bereich_flags1001_ne_allgemein_hernien :
    get_bereich rowFlags1001 ≠ "Allgemein, Hernien" := by
  decide

/-- C1, amended: on the row with area flags {1,0,0,1,0,0,0,0,0} the derived
area label equals "Chirurgische Onkologie/Sarkome" (only `bereich___4` is a
mapped indicator among the set flags). -/
theorem get_bereich_flags1001_eq :
    get_bereich rowFlags1001 = "Chirurgische Onkologie/Sarkome" := by
  decide

/-- Joining a nonempty list of nonempty labels yields a nonempty string. -/
lemma joinComma_ne_empty :
    ∀ ls : List String, ls ≠ [] → (∀ l ∈ ls, l ≠ "") → joinComma ls ≠ ""
  | [], h, _ => absurd rfl h
  | [x], _, hx => by simpa [joinComma] using hx x (by simp)
  | x :: y :: t, _, _ => by
    intro hcontra
    have hlen := congrArg String.length hcontra
    simp [joinComma, String.length_append] at hlen
    exact absurd hlen.1.2 (by decide)

/-- The checkbox collapse never yields the empty string. -/
lemma collapseCheckbox_ne_empty (mapping : List (String × String)) (row : RawRow) :
    collapseCheckbox mapping row ≠ "" := by
  unfold collapseCheckbox
  by_cases h : joinComma (activeLabels mapping row) = ""
  · simp only [h, if_true, reduceIte]
    decide
  · simp only [h, if_false, reduceIte]
    exact h

/-- Shape of the checkbox collapse: the sentinel when no mapped indicator is
set, the comma-joined active labels otherwise. -/
lemma collapseCheckbox_shape (mapping : List (String × String)) (row : RawRow)
    (hm : ∀ p ∈ mapping, p.2 ≠ "") :
    (activeLabels mapping row = [] → collapseCheckbox mapping row = "Nicht angegeben") ∧
    (activeLabels mapping row ≠ [] →
      collapseCheckbox mapping row = joinComma (activeLabels mapping row)) := by
  constructor
  · intro h
    simp [collapseCheckbox, h, joinComma]
  · intro h
    have hne : joinComma (activeLabels mapping row) ≠ "" := by
      refine joinComma_ne_empty _ h ?_
      intro l hl
      rcases List.mem_filterMap.mp hl with ⟨p, hp, hpl⟩
      by_cases hc : rawGet row p.1 = some "1"
      · simp [hc] at hpl
        exact hpl ▸ hm p hp
      · simp [hc] at hpl
    simp [collapseCheckbox, hne]

/-- A raw row with every checkbox indicator absent. -/
def emptyRow : RawRow := []

/-- A raw row with exactly the first liver-group indicator set. -/
def rowLeber1 : RawRow := [("leber_gruppen___1", "1")]

/-- C3: for every input row, each of the four checkbox-group collapses
(area, liver group, sarcoma group, localization) yields a non-empty label:
the comma-joined names of the mapped indicators set to '1', or the sentinel
"Nicht angegeben" when none is set. -/
theorem checkbox_collapse_nonempty (row : RawRow) :
    (get_bereich row ≠ "" ∧
      (activeLabels bereich_mapping row = [] → get_bereich row = "Nicht angegeben") ∧
      (activeLabels bereich_mapping row ≠ [] →
        get_bereich row = joinComma (activeLabels bereich_mapping row))) ∧
    (get_leber_gruppen row ≠ "" ∧
      (activeLabels leber_gruppen_mapping row = [] →
        get_leber_gruppen row = "Nicht angegeben") ∧
      (activeLabels leber_gruppen_mapping row ≠ [] →
        get_leber_gruppen row = joinComma (activeLabels leber_gruppen_mapping row))) ∧
    (get_gruppen_chir_onko_sark row ≠ "" ∧
      (activeLabels gruppen_chir_onko_sark_mapping row = [] →
        get_gruppen_chir_onko_sark row = "Nicht angegeben") ∧
      (activeLabels gruppen_chir_onko_sark_mapping row ≠ [] →
        get_gruppen_chir_onko_sark row =
          joinComma (activeLabels gruppen_chir_onko_sark_mapping row))) ∧
    (get_lokalisation_sark row ≠ "" ∧
      (activeLabels lokalisation_sark_mapping row = [] →
        get_lokalisation_sark row = "Nicht angegeben") ∧
      (activeLabels lokalisation_sark_mapping row ≠ [] →
        get_lokalisation_sark row = joinComma (activeLabels lokalisation_sark_mapping row))) :=
  ⟨⟨collapseCheckbox_ne_empty _ row, collapseCheckbox_shape _ row (by decide)⟩,
   ⟨collapseCheckbox_ne_empty _ row, collapseCheckbox_shape _ row (by decide)⟩,
   ⟨collapseCheckbox_ne_empty _ row, collapseCheckbox_shape _ row (by decide)⟩,
   ⟨collapseCheckbox_ne_empty _ row, collapseCheckbox_shape _ row (by decide)⟩⟩

/-- Witness for C3 at concrete rows: an all-absent row collapses to the
sentinel, a row with one liver indicator set collapses to the joined labels. -/
theorem checkbox_collapse_nonempty_witness :
    get_bereich emptyRow = "Nicht angegeben" ∧
    get_leber_gruppen rowLeber1 = joinComma (activeLabels leber_gruppen_mapping rowLeber1) :=
  ⟨(checkbox_collapse_nonempty emptyRow).1.2.1 (by decide),
   (checkbox_collapse_nonempty rowLeber1).2.1.2.2 (by decide)⟩

/-- Numeric value of a decimal digit character. -/
def digitVal (c : Char) : Nat := c.toNat - 48

/-- All characters are decimal digits (true on the empty list). -/
def digitsOk (cs : List Char) : Bool := cs.all (fun c => c.isDigit)

/-- Decimal value of a digit list (0 on the empty list). -/
def natOfDigits (cs : List Char) : Nat :=
  cs.foldl (fun acc c => acc * 10 + digitVal c) 0

/-- Decimal value of a nonempty all-digit character list. -/
def parseNatDigits (cs : List Char) : Option Nat :=
  if cs.isEmpty then none
  else if digitsOk cs then some (natOfDigits cs) else none

/-- Split a character list at every occurrence of a separator character
(Python `str.split(sep)`). -/
def splitOnChar (sep : Char) : List Char → List (List Char)
  | [] => [[]]
  | c :: t =>
    if c = sep then [] :: splitOnChar sep t
    else
      match splitOnChar sep t with
      | [] => [[c]]
      | h :: r => (c :: h) :: r

/-- A parsed numeric value, kept exactly as the decimal `num / 10 ^ exp`.
The coded fields of this registry only ever compare such values against small
integer dictionary keys, which this representation models exactly. -/
structure DecNum where
  num : Int
  exp : Nat
deriving DecidableEq, Repr

/-- Model of `pd.to_numeric(value, errors='coerce')` on the string values this
data carries: an optional sign followed by a plain decimal literal parses to an
exact decimal, anything else (including the empty string for a missing value)
coerces to missing. Scientific notation does not occur in this data and is not
modeled. -/
def pyToNumeric (s : String) : Option DecNum :=
  let signBody : Bool × List Char :=
    match s.data with
    | '-' :: t => (true, t)
    | '+' :: t => (false, t)
    | cs => (false, cs)
  let withSign : Int → Int := fun n => if signBody.1 then -n else n
  match splitOnChar '.' signBody.2 with
  | [ip] =>
    (parseNatDigits ip).map (fun n => ⟨withSign n, 0⟩)
  | [ip, fp] =>
    if ip.isEmpty && fp.isEmpty then none
    else if digitsOk ip && digitsOk fp then
      some ⟨withSign ((natOfDigits ip) * 10 ^ fp.length + natOfDigits fp), fp.length⟩
    else none
  | _ => none

/-- A parsed decimal hits an integer dictionary key `m` exactly when its value
equals `m`; the lookup `series.map(table_dict)` then returns the entry, and
any non-integer or out-of-table value falls through to `none` (NaN). -/
def lookupDec (table : List (Int × String)) (d : DecNum) : Option String :=
  if d.num = 0 ∨ d.num % (10 : Int) ^ d.exp = 0 then
    table.lookup (d.num / (10 : Int) ^ d.exp)
  else none

/-- The `zugang_mapping` dict of `prepare_data`, as an association list in
insertion order. -/
def zugang_mapping : List (Int × String) :=
  [(1, "Offen"),
   (2, "Laparoskopisch"),
   (3, "roboter-assistiert"),
   (4, "konvertiert"),
   (5, "hybrid (2Höhlen-Eingriffe)")]

/-- The `type_sark_mapping` dict of `prepare_data`. -/
def type_sark_mapping : List (Int × String) :=
  [(1, "CRS"),
   (2, "Sarkom/Weichteiltumor")]

/-- The `hipec_mapping` dict of `prepare_data`. -/
def hipec_mapping : List (Int × String) :=
  [(1, "Ja"),
   (0, "Nein")]

/-- The `max_dindo_calc_mapping` dict of `prepare_data`. -/
def max_dindo_calc_mapping : List (Int × String) :=
  [(0, "Keine Komplikation"),
   (1, "Grade I"),
   (2, "Grade Id"),
   (3, "Grade II"),
   (4, "Grade IId"),
   (5, "Grade IIIa"),
   (6, "Grade IIIa d"),
   (7, "Grade IIIb"),
   (8, "Grade IIIb d"),
   (9, "Grade IVa"),
   (10, "Grade IVa d"),
   (11, "Grade IVb"),
   (12, "Grade IVb d"),
   (13, "Grade V")]

/-- The `pd.to_numeric(...).map(table).fillna('Unbekannt')` pipeline applied
to one raw value (`none` models a missing value / NaN). -/
def mapFillUnknown (table : List (Int × String)) (v : Option String) : String :=
  ((v.bind pyToNumeric).bind (lookupDec table)).getD "Unbekannt"

/-- The `zugang` column transformation of `prepare_data`. -/
def zugang_label (v : Option String) : String := mapFillUnknown zugang_mapping v

/-- The `type_sark` column transformation of `prepare_data`. -/
def type_sark_label (v : Option String) : String := mapFillUnknown type_sark_mapping v

/-- The `hipec` column transformation of `prepare_data`. -/
def hipec_label (v : Option String) : String := mapFillUnknown hipec_mapping v

/-- The `max_dindo_calc` column transformation of `prepare_data`. -/
def max_dindo_label (v : Option String) : String := mapFillUnknown max_dindo_calc_mapping v

/-- The HSM tab's label mapping
`df_hsm['hsm'].astype(str).map({'0':'Nein','1':'Ja','0.0':'Nein','1.0':'Ja'})`:
a pandas `map` without `fillna`, so an unmapped value becomes NaN (`none`). -/
def hsm_label (s : String) : Option String :=
  if s = "0" then some "Nein"
  else if s = "1" then some "Ja"
  else if s = "0.0" then some "Nein"
  else if s = "1.0" then some "Ja"
  else none

/-- A successful association-list lookup returns one of the stored values. -/
lemma lookup_mem_values :
    ∀ (t : List (Int × String)) (m : Int) (l : String),
      t.lookup m = some l → l ∈ t.map Prod.snd
  | [], m, l, h => by simp [List.lookup] at h
  | (k, v) :: t, m, l, h => by
    by_cases hk : m == k
    · simp only [List.lookup, hk, if_true, reduceIte, Option.some.injEq] at h
      simp [h]
    · simp only [List.lookup, hk, if_false, Bool.false_eq_true, reduceIte] at h
      simpa using Or.inr (lookup_mem_values t m l h)

/-- The filled lookup pipeline yields "Unbekannt" or a value of the table. -/
lemma mapFillUnknown_mem (table : List (Int × String)) (v : Option String) :
    mapFillUnknown table v = "Unbekannt" ∨ mapFillUnknown table v ∈ table.map Prod.snd := by
  unfold mapFillUnknown
  cases h : (v.bind pyToNumeric).bind (lookupDec table) with
  | none => left; rfl
  | some l =>
    right
    rcases Option.bind_eq_some.mp h with ⟨d, _, hd⟩
    unfold lookupDec at hd
    split_ifs at hd
    simpa using lookup_mem_values table _ l hd

/-- C6: the access-route lookup is total with an unknown fallback: a missing
value, the empty string, the out-of-table code "7", every string that fails
numeric coercion, and every coerced value outside the table map to
"Unbekannt", while codes 1–5 map to their table entries. -/
theorem zugang_lookup_total :
    zugang_label none = "Unbekannt" ∧
    zugang_label (some "") = "Unbekannt" ∧
    zugang_label (some "7") = "Unbekannt" ∧
    (∀ s, pyToNumeric s = none → zugang_label (some s) = "Unbekannt") ∧
    (∀ s d, pyToNumeric s = some d → lookupDec zugang_mapping d = none →
      zugang_label (some s) = "Unbekannt") ∧
    zugang_label (some "1") = "Offen" ∧
    zugang_label (some "2") = "Laparoskopisch" ∧
    zugang_label (some "3") = "roboter-assistiert" ∧
    zugang_label (some "4") = "konvertiert" ∧
    zugang_label (some "5") = "hybrid (2Höhlen-Eingriffe)" := by
  refine ⟨rfl, by decide, by decide, ?_, ?_, by decide, by decide, by decide, by decide, by decide⟩
  · intro s h
    simp [zugang_label, mapFillUnknown, h]
  · intro s d h1 h2
    simp [zugang_label, mapFillUnknown, h1, h2]

/-- Witness for C6 at concrete inputs: a non-numeric string and a numeric
value outside the 1–5 table both label as "Unbekannt". -/
theorem zugang_lookup_total_witness :
    zugang_label (some "xyz") = "Unbekannt" ∧ zugang_label (some "2.5") = "Unbekannt" :=
  ⟨zugang_lookup_total.2.2.2.1 "xyz" (by decide),
   zugang_lookup_total.2.2.2.2.1 "2.5" ⟨25, 1⟩ (by decide) (by decide)⟩

/-- C2, counterexample: the hsm label mapping has no fillna, so the missing
value (empty string) receives no label at all (NaN), contradicting totality
of label derivation for the hsm flag. -/
theorem hsm_label_missing_undefined : hsm_label "" = none := rfl

/-- C2, amended: every labeled field of `prepare_data` is total — the four
checkbox collapses always yield a non-empty label and the four coded lookups
always yield "Unbekannt" or a table entry — while the hsm flag label is
defined exactly on the values "0", "1", "0.0", "1.0" and absent otherwise. -/
theorem label_derivation_total :
    (∀ row : RawRow, get_bereich row ≠ "" ∧ get_leber_gruppen row ≠ "" ∧
      get_gruppen_chir_onko_sark row ≠ "" ∧ get_lokalisation_sark row ≠ "") ∧
    (∀ v, zugang_label v = "Unbekannt" ∨
      zugang_label v ∈ ["Offen", "Laparoskopisch", "roboter-assistiert",
        "konvertiert", "hybrid (2Höhlen-Eingriffe)"]) ∧
    (∀ v, type_sark_label v = "Unbekannt" ∨
      type_sark_label v ∈ ["CRS", "Sarkom/Weichteiltumor"]) ∧
    (∀ v, hipec_label v = "Unbekannt" ∨ hipec_label v ∈ ["Ja", "Nein"]) ∧
    (∀ v, max_dindo_label v = "Unbekannt" ∨
      max_dindo_label v ∈ ["Keine Komplikation", "Grade I", "Grade Id", "Grade II",
        "Grade IId", "Grade IIIa", "Grade IIIa d", "Grade IIIb", "Grade IIIb d",
        "Grade IVa", "Grade IVa d", "Grade IVb", "Grade IVb d", "Grade V"]) ∧
    (∀ s, (hsm_label s).isSome ↔ (s = "0" ∨ s = "1" ∨ s = "0.0" ∨ s = "1.0")) := by
  refine ⟨?_, ?_, ?_, ?_, ?_, ?_⟩
  · intro row
    exact ⟨collapseCheckbox_ne_empty _ row, collapseCheckbox_ne_empty _ row,
      collapseCheckbox_ne_empty _ row, collapseCheckbox_ne_empty _ row⟩
  · intro v
    simpa [zugang_mapping] using mapFillUnknown_mem zugang_mapping v
  · intro v
    simpa [type_sark_mapping] using mapFillUnknown_mem type_sark_mapping v
  · intro v
    simpa [hipec_mapping] using mapFillUnknown_mem hipec_mapping v
  · intro v
    simpa [max_dindo_calc_mapping] using mapFillUnknown_mem max_dindo_calc_mapping v
  · intro s
    unfold hsm_label
    split_ifs with h1 h2 h3 h4
    · simp [h1]
    · simp [h2]
    · simp [h3]
    · simp [h4]
    · simp [h1, h2, h3, h4]

/-- Days per month with the Gregorian leap-year rule, as `pd.to_datetime`
validates. -/
def daysInMonth (y m : Nat) : Nat :=
  if m = 2 then
    if (y % 4 = 0 ∧ y % 100 ≠ 0) ∨ y % 400 = 0 then 29 else 28
  else if m = 4 ∨ m = 6 ∨ m = 9 ∨ m = 11 then 30
  else 31

/-- A parsed calendar date (`pd.Timestamp`, date part). -/
structure Date where
  year : Nat
  month : Nat
  day : Nat
deriving DecidableEq, Repr

/-- Model of `pd.to_datetime(value, errors='coerce')` on the ISO
`YYYY-MM-DD` strings this registry delivers: three dash-separated digit
groups forming a valid calendar date; anything else coerces to missing
(NaT). -/
def parseDate (s : String) : Option Date :=
  match splitOnChar '-' s.data with
  | [ys, ms, ds] =>
    match parseNatDigits ys, parseNatDigits ms, parseNatDigits ds with
    | some y, some m, some d =>
      if 1 ≤ m ∧ m ≤ 12 ∧ 1 ≤ d ∧ d ≤ daysInMonth y m then some ⟨y, m, d⟩ else none
    | _, _, _ => none
  | _ => none

/-- `df['opdatum'].dt.quarter`: the quarter number 1–4 of a month. -/
def quarterOfMonth (m : Nat) : Nat := (m - 1) / 3 + 1

/-- The character of a decimal digit. -/
def digitChar (d : Nat) : Char := Char.ofNat (48 + d)

/-- Decimal rendering of a natural number, with a fuel argument to keep the
recursion structural. -/
def renderNatAux : Nat → Nat → List Char
  | 0, _ => []
  | fuel + 1, n =>
    if n < 10 then [digitChar n]
    else renderNatAux fuel (n / 10) ++ [digitChar (n % 10)]

/-- Decimal rendering of a natural number (Python `str(n)` for `n ≥ 0`). -/
def renderNat (n : Nat) : List Char := renderNatAux (n + 1) n

/-- The `diag_quartal_opdatum` derivation: pandas renders the period as
`YYYYQn` and the regex replacement of `(\d{4})Q(\d)` by `Q\2-\1` turns it
into `Qn-YYYY`. -/
def formatQuartalLabel (y q : Nat) : String :=
  String.mk ('Q' :: renderNat q ++ '-' :: renderNat y)

/-- The `quartal_sort` derivation of `prepare_data`:
`dt.year * 10 + dt.quarter`. -/
def quartal_sort_key (y q : Nat) : Nat := y * 10 + q

/-- `jahr_opdatum`: the year of the parsed date. -/
def jahr_opdatum (d : Date) : Nat := d.year

/-- `quartal_opdatum`: the quarter of the parsed date. -/
def quartal_opdatum (d : Date) : Nat := quarterOfMonth d.month

/-- `diag_quartal_opdatum` of the parsed date. -/
def diag_quartal_opdatum (d : Date) : String :=
  formatQuartalLabel d.year (quarterOfMonth d.month)

/-- `quartal_sort` of the parsed date. -/
def quartal_sort (d : Date) : Nat := quartal_sort_key d.year (quarterOfMonth d.month)

/-- C4: the quarter sort key `year * 10 + quarter` strictly orders records
chronologically: with quarters in 1..4, the key of one (year, quarter) pair
is below the key of another exactly when the first pair lexicographically
precedes the second. -/
theorem quartal_sort_key_orders (y1 q1 y2 q2 : Nat)
    (hq1a : 1 ≤ q1) (hq1b : q1 ≤ 4) (hq2a : 1 ≤ q2) (hq2b : q2 ≤ 4) :
    quartal_sort_key y1 q1 < quartal_sort_key y2 q2 ↔
      (y1 < y2 ∨ (y1 = y2 ∧ q1 < q2)) := by
  unfold quartal_sort_key
  omega

/-- Witness for C4 at Q4-2023 versus Q1-2024. -/
theorem quartal_sort_key_orders_witness :
    quartal_sort_key 2023 4 < quartal_sort_key 2024 1 ↔
      (2023 < 2024 ∨ (2023 = 2024 ∧ 4 < 1)) :=
  quartal_sort_key_orders 2023 4 2024 1 (by decide) (by decide) (by decide) (by decide)

/-- C5: the raw date "2024-02-15" parses, its derived year is 2024, its
quarter label is "Q1-2024", and its quarter sort key is 20241. -/
theorem date_2024_02_15_derivations :
    parseDate "2024-02-15" = some ⟨2024, 2, 15⟩ ∧
    jahr_opdatum ⟨2024, 2, 15⟩ = 2024 ∧
    diag_quartal_opdatum ⟨2024, 2, 15⟩ = "Q1-2024" ∧
    quartal_sort ⟨2024, 2, 15⟩ = 20241 := by
  refine ⟨by decide, rfl, by decide, rfl⟩

/-- Modelled from the spec: the inverse reading of the `Qn-YYYY` quarter
label (a leading 'Q', one quarter digit, a dash, then the year digits); the
source only formats these labels and never parses them back. -/
def parseQuartalLabel (s : String) : Option (Nat × Nat) :=
  match s.data with
  | 'Q' :: qc :: '-' :: ycs =>
    if qc.isDigit then (parseNatDigits ycs).map (fun y => (y, digitVal qc))
    else none
  | _ => none

/-- The character of a digit below ten is a digit character. -/
lemma digitChar_isDigit {d : Nat} (h : d < 10) : (digitChar d).isDigit = true := by
  interval_cases d <;> decide

/-- Reading back the character of a digit below ten gives the digit. -/
lemma digitVal_digitChar {d : Nat} (h : d < 10) : digitVal (digitChar d) = d := by
  interval_cases d <;> decide

/-- The decimal rendering consists of digit characters only. -/
lemma renderNatAux_digits :
    ∀ fuel n, n < fuel → digitsOk (renderNatAux fuel n) = true
  | 0, n, h => absurd h (by omega)
  | fuel + 1, n, h => by
    unfold renderNatAux
    by_cases h10 : n < 10
    · simp [h10, digitsOk, digitChar_isDigit h10]
    · have hrec := renderNatAux_digits fuel (n / 10) (by omega)
      simp only [digitsOk, List.all_eq_true] at hrec ⊢
      rw [if_neg h10]
      intro c hc
      rcases List.mem_append.mp hc with hm | hm
      · exact hrec c hm
      · simp only [List.mem_singleton] at hm
        exact hm ▸ digitChar_isDigit (by omega)

/-- The decimal rendering is nonempty. -/
lemma renderNatAux_ne_nil :
    ∀ fuel n, n < fuel → renderNatAux fuel n ≠ []
  | 0, n, h => absurd h (by omega)
  | fuel + 1, n, _ => by
    unfold renderNatAux
    by_cases h10 : n < 10
    · simp [h10]
    · rw [if_neg h10]
      simp

/-- Appending one digit multiplies the accumulated value by ten. -/
lemma natOfDigits_snoc (xs : List Char) (c : Char) :
    natOfDigits (xs ++ [c]) = natOfDigits xs * 10 + digitVal c := by
  unfold natOfDigits
  rw [List.foldl_append]
  rfl

/-- The decimal value of the rendering of `n` is `n`. -/
lemma natOfDigits_renderNatAux :
    ∀ fuel n, n < fuel → natOfDigits (renderNatAux fuel n) = n
  | 0, n, h => absurd h (by omega)
  | fuel + 1, n, h => by
    unfold renderNatAux
    by_cases h10 : n < 10
    · rw [if_pos h10]
      show 0 * 10 + digitVal (digitChar n) = n
      rw [digitVal_digitChar h10]
      omega
    · rw [if_neg h10, natOfDigits_snoc,
        natOfDigits_renderNatAux fuel (n / 10) (by omega),
        digitVal_digitChar (show n % 10 < 10 by omega)]
      omega

/-- Parsing the decimal rendering of `n` recovers `n`. -/
lemma parseNatDigits_renderNat (n : Nat) : parseNatDigits (renderNat n) = some n := by
  unfold parseNatDigits renderNat
  have h1 := renderNatAux_digits (n + 1) n (by omega)
  have h2 := renderNatAux_ne_nil (n + 1) n (by omega)
  have h3 := natOfDigits_renderNatAux (n + 1) n (by omega)
  rw [if_neg (by simpa [List.isEmpty_iff] using h2), if_pos h1, h3]

/-- A quarter digit renders as its single digit character. -/
lemma renderNat_single {q : Nat} (h : q < 10) : renderNat q = [digitChar q] := by
  unfold renderNat renderNatAux
  rw [if_pos h]

/-- C9: quarter label derivation round-trips: for every quarter in 1..4 and
four-digit year, formatting the `Qn-YYYY` label and parsing it back recovers
the same (year, quarter) pair. -/
theorem quartal_label_roundtrip (y q : Nat) (hq1 : 1 ≤ q) (hq4 : q ≤ 4)
    (hy1 : 1000 ≤ y) (hy2 : y ≤ 9999) :
    parseQuartalLabel (formatQuartalLabel y q) = some (y, q) := by
  have hq10 : q < 10 := by omega
  unfold formatQuartalLabel
  rw [renderNat_single hq10]
  show (if (digitChar q).isDigit = true then
      (parseNatDigits (renderNat y)).map (fun a => (a, digitVal (digitChar q)))
    else none) = some (y, q)
  rw [if_pos (digitChar_isDigit hq10), parseNatDigits_renderNat,
    digitVal_digitChar hq10]
  rfl

/-- Witness for C9 at (2024, Q1). -/
theorem quartal_label_roundtrip_witness :
    parseQuartalLabel (formatQuartalLabel 2024 1) = some (2024, 1) :=
  quartal_label_roundtrip 2024 1 (by decide) (by decide) (by decide) (by decide)

/-- A transformed case record: the columns `prepare_data` leaves behind.
Columns not touched by the transformation (hsm, the two length-of-stay
fields, `anastomosen_crs`) pass through as raw strings; only `hsm` is needed
downstream. -/
structure Row where
  opdatum : Date
  bereich : String
  leber_gruppen : String
  gruppen_chir_onko_sark : String
  type_sark : String
  hipec : String
  lokalisation_sark : String
  max_dindo_calc : String
  zugang : String
  hsm : String
  jahr_opdatum : Nat
  quartal_opdatum : Nat
  diag_quartal_opdatum : String
  quartal_sort : Nat
deriving DecidableEq, Repr

/-- The per-record body of `prepare_data`: parse the date, collapse the
checkbox groups, map the coded fields, derive year/quarter columns. A record
whose date does not parse gets a missing year and is removed by
`dropna(subset=['jahr_opdatum'])`, modeled as `none`. -/
def prepareRow (r : RawRow) : Option Row :=
  match (rawGet r "opdatum").bind parseDate with
  | none => none
  | some d =>
    some
      { opdatum := d
        bereich := get_bereich r
        leber_gruppen := get_leber_gruppen r
        gruppen_chir_onko_sark := get_gruppen_chir_onko_sark r
        type_sark := type_sark_label (rawGet r "type_sark")
        hipec := hipec_label (rawGet r "hipec")
        lokalisation_sark := get_lokalisation_sark r
        max_dindo_calc := max_dindo_label (rawGet r "max_dindo_calc")
        zugang := zugang_label (rawGet r "zugang")
        hsm := (rawGet r "hsm").getD ""
        jahr_opdatum := jahr_opdatum d
        quartal_opdatum := quartal_opdatum d
        diag_quartal_opdatum := diag_quartal_opdatum d
        quartal_sort := quartal_sort d }

/-- `prepare_data`: `none` models both a `None` input and a `None` result.
The function returns `None` exactly when the payload is absent or empty
(`if df is None or df.empty: return None`); otherwise it transforms every
record and drops those without a parseable date. -/
def prepare_data (p : Option (List RawRow)) : Option (List Row) :=
  match p with
  | none => none
  | some rows => if rows.isEmpty then none else some (rows.filterMap prepareRow)

/-- Outcome of the caller's no-data check after loading
(`if df is None or df.empty: st.error("Keine Daten verfügbar."); st.stop()`). -/
inductive AppStart where
  | halted (msg : String)
  | proceed (df : List Row)
deriving DecidableEq, Repr

/-- The top-level load sequence: transform the payload, then halt with the
no-data message when the result is `None` or empty, otherwise proceed with
the transformed records. -/
def app_start (p : Option (List RawRow)) : AppStart :=
  match prepare_data p with
  | none => .halted "Keine Daten verfügbar."
  | some rows =>
    if rows.isEmpty then .halted "Keine Daten verfügbar." else .proceed rows

/-- C8: the transform fails only on an absent or empty payload, returning
`None`; every non-empty payload yields the (possibly empty after
date-dropping) transformed record set; and the caller halts rendering with
the "Keine Daten verfügbar." message exactly when the transform result is
`None` or empty, proceeding otherwise with a non-empty record set. -/
theorem prepare_data_empty_policy :
    prepare_data none = none ∧
    prepare_data (some []) = none ∧
    (∀ rows : List RawRow, rows ≠ [] →
      prepare_data (some rows) = some (rows.filterMap prepareRow)) ∧
    app_start none = .halted "Keine Daten verfügbar." ∧
    app_start (some []) = .halted "Keine Daten verfügbar." ∧
    (∀ p, app_start p = .halted "Keine Daten verfügbar." ∨
      ∃ rows, app_start p = .proceed rows ∧ rows ≠ []) := by
  refine ⟨rfl, rfl, ?_, rfl, rfl, ?_⟩
  · intro rows h
    simp [prepare_data, h]
  · intro p
    unfold app_start
    cases hp : prepare_data p with
    | none => left; rfl
    | some rows =>
      by_cases he : rows.isEmpty
      · left; simp [he]
      · right
        exact ⟨rows, by simp [he], by simpa [List.isEmpty_iff] using he⟩

/-- A sample raw record with a parseable date. -/
def sampleRawRow : RawRow :=
  [("opdatum", "2024-02-15"), ("bereich___7", "1"), ("zugang", "2"),
   ("type_sark", ""), ("hipec", ""), ("max_dindo_calc", "0"), ("hsm", "1")]

/-- Witness for C8: a one-record payload is transformed, not rejected. -/
theorem prepare_data_empty_policy_witness :
    prepare_data (some [sampleRawRow]) = some ([sampleRawRow].filterMap prepareRow) :=
  prepare_data_empty_policy.2.2.1 [sampleRawRow] (List.cons_ne_nil _ _)

/-- `df.groupby(keys).size()`: one output row per distinct key with the
count of matching records. Pandas sorts the group keys; key order is
irrelevant to the properties below, so first-occurrence order is kept. -/
def groupby_size {κ : Type} [DecidableEq κ] (key : Row → κ) (df : List Row) :
    List (κ × Nat) :=
  (df.map key).dedup.map (fun k => (k, (df.filter (fun r => decide (key r = k))).length))

/-- `df_jahr_filtered`: the year filter, then the bereich and zugang
select-box filters ("Alle" disables a filter), in source order. -/
def df_jahr_filtered (df : List Row) (selJ : List Nat) (bf zf : String) : List Row :=
  let d1 := df.filter (fun r => selJ.contains r.jahr_opdatum)
  let d2 := if bf = "Alle" then d1 else d1.filter (fun r => r.bereich == bf)
  if zf = "Alle" then d2 else d2.filter (fun r => r.zugang == zf)

/-- `df_filtered`: the combined year-and-quarter filter, then the bereich and
zugang select-box filters, in source order. -/
def df_filtered (df : List Row) (selJ selQ : List Nat) (bf zf : String) : List Row :=
  let d1 := df.filter
    (fun r => selJ.contains r.jahr_opdatum && selQ.contains r.quartal_opdatum)
  let d2 := if bf = "Alle" then d1 else d1.filter (fun r => r.bereich == bf)
  if zf = "Alle" then d2 else d2.filter (fun r => r.zugang == zf)

/-- Outcome of one render pass over the filter section: the selection guard
(`Sicherheitscheck` + `st.stop()`), the empty-filter guard
(`len(df_jahr_filtered) == 0` + `st.stop()`), or the charts with their two
grouped count tables. -/
inductive RenderOutcome where
  | haltedSelection (msg : String)
  | haltedNoData (msg : String)
  | charts (jahrTable : List (Nat × Nat)) (quartalTable : List ((Nat × Nat) × Nat))
deriving DecidableEq, Repr

/-- The filter-and-render flow of the script body (lines 372–495): warn and
stop on an empty year or quarter selection, filter, warn and stop when the
filtered subset is empty, otherwise build the grouped count tables. -/
def dashboard (df : List Row) (selJ selQ : List Nat) (bf zf : String) : RenderOutcome :=
  if selJ.isEmpty || selQ.isEmpty then
    .haltedSelection "⚠️ Bitte wählen Sie mindestens ein Jahr und ein Quartal aus."
  else
    let dfJ := df_jahr_filtered df selJ bf zf
    if dfJ.length = 0 then
      .haltedNoData "Keine Daten für die gewählten Filter verfügbar."
    else
      .charts (groupby_size (fun r => r.jahr_opdatum) dfJ)
        (groupby_size (fun r => (r.jahr_opdatum, r.quartal_opdatum))
          (df_filtered df selJ selQ bf zf))

/-- A sample transformed record (year 2024, quarter 1). -/
def sampleRow : Row :=
  { opdatum := ⟨2024, 2, 15⟩
    bereich := "Leber"
    leber_gruppen := "Nicht angegeben"
    gruppen_chir_onko_sark := "Nicht angegeben"
    type_sark := "Unbekannt"
    hipec := "Unbekannt"
    lokalisation_sark := "Nicht angegeben"
    max_dindo_calc := "Keine Komplikation"
    zugang := "Laparoskopisch"
    hsm := "1"
    jahr_opdatum := 2024
    quartal_opdatum := 1
    diag_quartal_opdatum := "Q1-2024"
    quartal_sort := 20241 }

/-- C7, counterexample: with all years deselected the app does not return
zero-row chart tables with a "no data" notice — it warns about the selection
and stops before any aggregation, so no charts outcome (in particular not
the zero-row one) is produced. -/
theorem dashboard_empty_selection_no_tables :
    dashboard [sampleRow] [] [1, 2, 3, 4] "Alle" "Alle" =
      .haltedSelection "⚠️ Bitte wählen Sie mindestens ein Jahr und ein Quartal aus." ∧
    dashboard [sampleRow] [] [1, 2, 3, 4] "Alle" "Alle" ≠ .charts [] [] := by
  refine ⟨rfl, by decide⟩

/-- C7, amended: an empty year or quarter selection halts with the selection
warning before any aggregation; a nonempty selection whose filtered subset is
empty halts with the explicit "no data" notice before computing any chart
table; and the groupby-count aggregation itself, applied to an empty record
set, yields a zero-row table without failing. -/
theorem dashboard_empty_subset :
    (∀ (df : List Row) (selQ : List Nat) (bf zf : String),
      dashboard df [] selQ bf zf =
        .haltedSelection "⚠️ Bitte wählen Sie mindestens ein Jahr und ein Quartal aus.") ∧
    (∀ (df : List Row) (selJ : List Nat) (bf zf : String),
      dashboard df selJ [] bf zf =
        .haltedSelection "⚠️ Bitte wählen Sie mindestens ein Jahr und ein Quartal aus.") ∧
    (∀ (df : List Row) (selJ selQ : List Nat) (bf zf : String),
      selJ ≠ [] → selQ ≠ [] → df_jahr_filtered df selJ bf zf = [] →
      dashboard df selJ selQ bf zf =
        .haltedNoData "Keine Daten für die gewählten Filter verfügbar.") ∧
    (∀ (κ : Type) [DecidableEq κ] (key : Row → κ),
      groupby_size key [] = ([] : List (κ × Nat))) := by
  refine ⟨?_, ?_, ?_, ?_⟩
  · intro df selQ bf zf
    simp [dashboard]
  · intro df selJ bf zf
    simp [dashboard]
  · intro df selJ selQ bf zf h1 h2 h3
    unfold dashboard
    rw [if_neg (by simp [List.isEmpty_iff, h1, h2])]
    simp [h3]
  · intro κ inst key
    rfl

/-- Witness for C7 at concrete inputs: a selection of year 1999 over a
2024 record filters to the empty subset and halts with the notice. -/
theorem dashboard_empty_subset_witness :
    dashboard [sampleRow] [1999] [1] "Alle" "Alle" =
      .haltedNoData "Keine Daten für die gewählten Filter verfügbar." :=
  dashboard_empty_subset.2.2.1 [sampleRow] [1999] [1] "Alle" "Alle"
    (by decide) (by decide) (by decide)

/-- `px.colors.qualitative.Safe`, the global palette (11 colors). -/
def COLOR_PALETTE : List String :=
  ["rgb(136, 204, 238)", "rgb(204, 102, 119)", "rgb(221, 204, 119)",
   "rgb(17, 119, 51)", "rgb(51, 34, 136)", "rgb(170, 68, 153)",
   "rgb(68, 170, 153)", "rgb(153, 153, 51)", "rgb(136, 34, 85)",
   "rgb(102, 17, 0)", "rgb(221, 221, 221)"]

/-- Python list replication `l * k`. -/
def listMul {α : Type} (l : List α) : Nat → List α
  | 0 => []
  | k + 1 => l ++ listMul l k

/-- Python `sorted(set(items))`: the distinct items in ascending order. -/
def uniqueSorted (items : List String) : List String :=
  items.dedup.insertionSort (fun a b => a ≤ b)

/-- `get_color_map`: replicate the palette to cover all distinct items and
assign the i-th color to the i-th sorted distinct item. -/
def get_color_map (items : List String) : List (String × String) :=
  let u := uniqueSorted items
  let colors := listMul COLOR_PALETTE (u.length / COLOR_PALETTE.length + 1)
  u.enum.map (fun p => (p.2, colors.getD p.1 ""))

/-- Replicating a list `k` times multiplies its length by `k`. -/
lemma listMul_length {α : Type} (l : List α) :
    ∀ k, (listMul l k).length = k * l.length
  | 0 => by simp [listMul]
  | k + 1 => by
    simp only [listMul, List.length_append, listMul_length l k, Nat.succ_mul]
    omega

/-- The replicated palette always covers all distinct items. -/
lemma uniqueSorted_length_le (items : List String) :
    (uniqueSorted items).length ≤
      (listMul COLOR_PALETTE ((uniqueSorted items).length / COLOR_PALETTE.length + 1)).length := by
  rw [listMul_length]
  simp only [show COLOR_PALETTE.length = 11 from rfl]
  omega

/-- `sorted(set(·))` depends only on the set of items. -/
lemma uniqueSorted_ext (a b : List String) (h : ∀ x, x ∈ a ↔ x ∈ b) :
    uniqueSorted a = uniqueSorted b := by
  unfold uniqueSorted
  refine List.eq_of_perm_of_sorted ?_ (List.sorted_insertionSort _ _)
    (List.sorted_insertionSort _ _)
  refine (List.perm_insertionSort _ _).trans
    (List.Perm.trans ?_ (List.perm_insertionSort _ _).symm)
  refine (List.perm_ext_iff_of_nodup a.nodup_dedup b.nodup_dedup).mpr ?_
  intro x
  simp [List.mem_dedup, h x]

/-- C10: `get_color_map` is total and deterministic: the replicated palette
has length `len(palette) * (n // len(palette) + 1)`, which always covers the
`n` distinct items (so no index is out of bounds), every item of the input
receives a color, and two item lists with the same set of items receive the
same item-to-color assignment. -/
theorem get_color_map_total_deterministic :
    (∀ items : List String,
      (listMul COLOR_PALETTE ((uniqueSorted items).length / COLOR_PALETTE.length + 1)).length
        = COLOR_PALETTE.length * ((uniqueSorted items).length / COLOR_PALETTE.length + 1) ∧
      (uniqueSorted items).length ≤
        (listMul COLOR_PALETTE
          ((uniqueSorted items).length / COLOR_PALETTE.length + 1)).length) ∧
    (∀ (items : List String) (x : String), x ∈ items →
      ∃ c, (x, c) ∈ get_color_map items) ∧
    (∀ a b : List String, (∀ x, x ∈ a ↔ x ∈ b) →
      get_color_map a = get_color_map b) := by
  refine ⟨?_, ?_, ?_⟩
  · intro items
    exact ⟨by rw [listMul_length, Nat.mul_comm], uniqueSorted_length_le items⟩
  · intro items x hx
    have hxu : x ∈ uniqueSorted items := by
      unfold uniqueSorted
      rw [List.mem_insertionSort]
      simpa [List.mem_dedup] using hx
    rcases List.getElem_of_mem hxu with ⟨i, hi, hgi⟩
    refine ⟨(listMul COLOR_PALETTE
      ((uniqueSorted items).length / COLOR_PALETTE.length + 1)).getD i "", ?_⟩
    unfold get_color_map
    refine List.mem_map.mpr ⟨(i, x), ?_, rfl⟩
    rw [List.mk_mem_enum_iff_getElem?]
    simp [List.getElem?_eq_getElem hi, hgi]
  · intro a b h
    unfold get_color_map
    rw [uniqueSorted_ext a b h]

/-- Witness for C10 at concrete item lists. -/
theorem get_color_map_witness :
    (∃ c, ("b", c) ∈ get_color_map ["b", "a", "b"]) ∧
    get_color_map ["a", "b"] = get_color_map ["b", "a", "b"] :=
  ⟨get_color_map_total_deterministic.2.1 ["b", "a", "b"] "b" (by decide),
   get_color_map_total_deterministic.2.2 ["a", "b"] ["b", "a", "b"]
     (by intro x; simp [List.mem_cons]; tauto)⟩

end OPG
